import Mathlib

/-!
Shallow embedding of the kernel-load and verification core of the
vboot_reference firmware (src/firmware/lib/vboot_kernel.c) and of the
boot-state measurement table (2tpm_bootmode.c).

External collaborators (stream I/O, GPT library, RSA/SHA primitives,
secdata/FWMP stores) are modelled as oracles: the outcome of each call site is a
boolean field of the input records, and the data the code reads from disk
(keyblock header fields, preamble fields) are plain record fields.  Machine
integers are Nat with explicit reduction mod 2^32 where the C code can
overflow.
-/

namespace Vboot

/-- Boot modes, from enum vb2_boot_mode. -/
inductive Vb2BootMode where
  | normal
  | recovery
  | developer
  deriving DecidableEq

/-- Verification / load error codes used by this translation unit.  Each
constructor names the vb2_error_t value the C code returns at the
corresponding exit. -/
inductive Vb2Error where
  | vblockKernelSubkey          -- VB2_ERROR_VBLOCK_KERNEL_SUBKEY
  | keyblockSig                 -- rv of vb2_verify_keyblock (signature path)
  | keyblockHash                -- rv of vb2_verify_keyblock_hash
  | keyblockDevFlag             -- VB2_ERROR_KERNEL_KEYBLOCK_DEV_FLAG
  | keyblockRecFlag             -- VB2_ERROR_KERNEL_KEYBLOCK_REC_FLAG
  | keyblockVersionRollback     -- VB2_ERROR_KERNEL_KEYBLOCK_VERSION_ROLLBACK
  | keyblockVersionRange        -- VB2_ERROR_KERNEL_KEYBLOCK_VERSION_RANGE
  | vblockDevKeyHash            -- VB2_ERROR_VBLOCK_DEV_KEY_HASH
  | dataKeyUnpack               -- rv of vb2_unpack_key on the data key
  | preambleVerify              -- rv of vb2_verify_kernel_preamble
  | preambleVersionRange        -- VB2_ERROR_KERNEL_PREAMBLE_VERSION_RANGE
  | preambleVersionRollback     -- VB2_ERROR_KERNEL_PREAMBLE_VERSION_ROLLBACK
  | loadPartitionWorkbuf        -- VB2_ERROR_LOAD_PARTITION_WORKBUF
  | loadPartitionReadVblock     -- VB2_ERROR_LOAD_PARTITION_READ_VBLOCK
  | loadPartitionVerifyVblock   -- VB2_ERROR_LOAD_PARTITION_VERIFY_VBLOCK
  | loadPartitionBodyOffset     -- VB2_ERROR_LOAD_PARTITION_BODY_OFFSET
  | loadPartitionBodySize       -- VB2_ERROR_LOAD_PARTITION_BODY_SIZE
  | loadPartitionReadBody       -- VB2_ERROR_LOAD_PARTITION_READ_BODY
  | loadPartitionDataKey        -- VB2_ERROR_LOAD_PARTITION_DATA_KEY
  | loadPartitionVerifyBody     -- VB2_ERROR_LOAD_PARTITION_VERIFY_BODY
  deriving DecidableEq

/-- Return codes of LoadKernel itself. -/
inductive LkResult where
  | success                     -- VB2_SUCCESS
  | invalidKernelFound          -- VB2_ERROR_LK_INVALID_KERNEL_FOUND
  | noKernelFound               -- VB2_ERROR_LK_NO_KERNEL_FOUND
  deriving DecidableEq

/-- Vboot context: the ctx->flags bits this unit reads, plus the outcomes of
the external secdata/FWMP/nvdata reads and of unpacking the kernel subkey
stored in shared data. -/
structure Ctx where
  recovery_mode : Bool              -- ctx->flags & VB2_CONTEXT_RECOVERY_MODE
  developer_mode : Bool             -- ctx->flags & VB2_CONTEXT_DEVELOPER_MODE
  nofail_boot : Bool                -- ctx->flags & VB2_CONTEXT_NOFAIL_BOOT
  hwcrypto_allowed : Bool           -- vb2_hwcrypto_allowed(ctx); only marks
                                    -- unpacked keys, no further effect here
  subkey_unpack_ok : Bool           -- vb2_unpack_key on the sd kernel subkey
  workbuf_alloc_ok : Bool           -- vb2_workbuf_alloc(KBUF_SIZE) succeeds
  fwmp_dev_enable_official_only : Bool
      -- vb2_secdata_fwmp_get_flag(VB2_SECDATA_FWMP_DEV_ENABLE_OFFICIAL_ONLY)
  fwmp_dev_use_key_hash : Bool
      -- vb2_secdata_fwmp_get_flag(VB2_SECDATA_FWMP_DEV_USE_KEY_HASH)
  fwmp_dev_key_hash_present : Bool
      -- vb2_secdata_fwmp_get_dev_key_hash(ctx) != NULL
  nv_dev_boot_signed_only : Bool    -- vb2_nv_get(VB2_NV_DEV_BOOT_SIGNED_ONLY)

/-- The fields of vb2_shared_data this unit reads and writes. -/
structure SharedData where
  flag_kernel_signed : Bool         -- sd->flags & VB2_SD_FLAG_KERNEL_SIGNED
  kernel_version : Nat              -- sd->kernel_version
  kernel_version_secdata : Nat      -- sd->kernel_version_secdata

/-- One kernel vblock (keyblock + preamble) as read from the start of a
partition, together with the outcomes of the crypto primitives applied to
this buffer. -/
structure Vblock where
  keyblock_flags : Nat              -- keyblock->keyblock_flags
  data_key_version : Nat            -- keyblock->data_key.key_version
  keyblock_size : Nat               -- keyblock->keyblock_size
  preamble_size : Nat               -- preamble->preamble_size
  preamble_kernel_version : Nat     -- preamble->kernel_version
  body_sig_data_size : Nat          -- preamble->body_signature.data_size
  bootloader_address : Nat          -- preamble->bootloader_address
  bootloader_size : Nat             -- preamble->bootloader_size
  preamble_flags : Nat              -- vb2_kernel_get_flags(preamble)
  keyblock_sig_ok : Bool            -- vb2_verify_keyblock
  keyblock_hash_ok : Bool           -- vb2_verify_keyblock_hash
  data_key_unpack_ok : Bool         -- vb2_unpack_key(keyblock->data_key)
  preamble_sig_ok : Bool            -- vb2_verify_kernel_preamble
  body_sig_ok : Bool                -- vb2_verify_data on the kernel body
  dev_key_hash_match : Bool         -- vb2_safe_memcmp(digest, fwmp hash) == 0

def VB2_KEYBLOCK_FLAG_DEVELOPER_0 : Nat := 1
def VB2_KEYBLOCK_FLAG_DEVELOPER_1 : Nat := 2
def VB2_KEYBLOCK_FLAG_RECOVERY_0 : Nat := 4
def VB2_KEYBLOCK_FLAG_RECOVERY_1 : Nat := 8
def VB2_MAX_KEY_VERSION : Nat := 0xFFFF
def VB2_MAX_PREAMBLE_VERSION : Nat := 0xFFFF
def KBUF_SIZE : Nat := 65536
def LOWEST_TPM_VERSION : Nat := 0xffffffff

/-- get_boot_mode: recovery dominates developer dominates normal. -/
def get_boot_mode (ctx : Ctx) : Vb2BootMode :=
  if ctx.recovery_mode then Vb2BootMode.recovery
  else if ctx.developer_mode then Vb2BootMode.developer
  else Vb2BootMode.normal

/-- need_valid_keyblock: 1 if an officially signed kernel is required. -/
def need_valid_keyblock (ctx : Ctx) : Bool :=
  if get_boot_mode ctx ≠ Vb2BootMode.developer then true
  else if ctx.fwmp_dev_enable_official_only then true
  else if ctx.nv_dev_boot_signed_only then true
  else false

/-- Ghost trace of which crypto primitives vb2_verify_kernel_vblock invoked,
in order. -/
inductive CryptoOp where
  | keyblockSigVerify           -- vb2_verify_keyblock
  | keyblockHashVerify          -- vb2_verify_keyblock_hash
  | preambleSigVerify           -- vb2_verify_kernel_preamble
  deriving DecidableEq

/-- Result of vb2_verify_kernel_vblock: updated shared data, the returned
error (none = VB2_SUCCESS), and the ghost crypto trace. -/
structure VblockResult where
  sd : SharedData
  result : Option Vb2Error
  trace : List CryptoOp

/-- Final section of vb2_verify_kernel_vblock (lines 261-308): record the
kernel-signed flag, unpack the data key, verify the preamble, range-check its
version, form the composite version, and apply the composite rollback check.
keyblock_valid and tr are the flag and crypto trace accumulated so far. -/
def vblock_verify_preamble (ctx : Ctx) (sd : SharedData) (kb : Vblock)
    (need_kb keyblock_valid : Bool) (tr : List CryptoOp) : VblockResult :=
  -- Track if the keyblock had a valid signature
  let sd := if keyblock_valid then { sd with flag_kernel_signed := true }
            else sd
  -- Get key for preamble verification from the keyblock
  if kb.data_key_unpack_ok = false then
    ⟨sd, some Vb2Error.dataKeyUnpack, tr⟩
  else
  -- Verify the preamble, which follows the keyblock
  let tr := tr ++ [CryptoOp.preambleSigVerify]
  if kb.preamble_sig_ok = false then
    ⟨sd, some Vb2Error.preambleVerify, tr⟩
  else
  if kb.preamble_kernel_version > VB2_MAX_PREAMBLE_VERSION then
    ⟨sd, some Vb2Error.preambleVersionRange, tr⟩
  else
  -- Combine with the key version (uint32 arithmetic)
  let sd := { sd with kernel_version :=
    ((kb.data_key_version <<< 16) % 4294967296) ||| kb.preamble_kernel_version }
  -- If not in recovery mode, check for rollback of the kernel version
  if need_kb = true ∧ get_boot_mode ctx ≠ Vb2BootMode.recovery ∧
      sd.kernel_version < sd.kernel_version_secdata then
    ⟨sd, some Vb2Error.preambleVersionRollback, tr⟩
  else
    ⟨sd, none, tr⟩

/-- Developer key-hash section of vb2_verify_kernel_vblock (lines 225-259):
in developer mode with the FWMP use-key-hash flag, the SHA-256 digest of
the data key must match the FWMP-provided hash; a missing hash or a mismatch is
fatal. -/
def vblock_check_dev_key_hash (ctx : Ctx) (sd : SharedData) (kb : Vblock)
    (need_kb keyblock_valid : Bool) (tr : List CryptoOp) : VblockResult :=
  if get_boot_mode ctx = Vb2BootMode.developer ∧
      ctx.fwmp_dev_use_key_hash = true ∧
      ctx.fwmp_dev_key_hash_present = false then
    ⟨sd, some Vb2Error.vblockDevKeyHash, tr⟩
  else if get_boot_mode ctx = Vb2BootMode.developer ∧
      ctx.fwmp_dev_use_key_hash = true ∧ kb.dev_key_hash_match = false then
    ⟨sd, some Vb2Error.vblockDevKeyHash, tr⟩
  else
    vblock_verify_preamble ctx sd kb need_kb keyblock_valid tr

/-- Key-version section of vb2_verify_kernel_vblock (lines 202-223): except
in recovery mode, reject key versions below the upper 16 bits of the secured
counter and key versions above 0xFFFF; under a not-required keyblock these
only downgrade keyblock_valid. -/
def vblock_check_key_version (ctx : Ctx) (sd : SharedData) (kb : Vblock)
    (need_kb keyblock_valid : Bool) (tr : List CryptoOp) : VblockResult :=
  if get_boot_mode ctx ≠ Vb2BootMode.recovery ∧
      kb.data_key_version < sd.kernel_version_secdata >>> 16 ∧
      need_kb = true then
    ⟨sd, some Vb2Error.keyblockVersionRollback, tr⟩
  else if get_boot_mode ctx ≠ Vb2BootMode.recovery ∧
      kb.data_key_version > VB2_MAX_KEY_VERSION ∧ need_kb = true then
    ⟨sd, some Vb2Error.keyblockVersionRange, tr⟩
  else
    let keyblock_valid := keyblock_valid &&
      !(decide (get_boot_mode ctx ≠ Vb2BootMode.recovery ∧
                kb.data_key_version < sd.kernel_version_secdata >>> 16)) &&
      !(decide (get_boot_mode ctx ≠ Vb2BootMode.recovery ∧
                kb.data_key_version > VB2_MAX_KEY_VERSION))
    vblock_check_dev_key_hash ctx sd kb need_kb keyblock_valid tr

/-- Keyblock-flags section of vb2_verify_kernel_vblock (lines 182-200): the
developer-N and recovery-N bits matching the current mode must be set; a
mismatch downgrades keyblock_valid and is fatal only when a valid keyblock
is required. -/
def vblock_check_flags (ctx : Ctx) (sd : SharedData) (kb : Vblock)
    (need_kb keyblock_valid : Bool) (tr : List CryptoOp) : VblockResult :=
  let dev_flag_ok : Bool :=
    (kb.keyblock_flags &&&
      (if ctx.developer_mode then VB2_KEYBLOCK_FLAG_DEVELOPER_1
       else VB2_KEYBLOCK_FLAG_DEVELOPER_0)) != 0
  if dev_flag_ok = false ∧ need_kb = true then
    ⟨sd, some Vb2Error.keyblockDevFlag, tr⟩
  else
  let keyblock_valid := keyblock_valid && dev_flag_ok
  let rec_flag_ok : Bool :=
    (kb.keyblock_flags &&&
      (if ctx.recovery_mode then VB2_KEYBLOCK_FLAG_RECOVERY_1
       else VB2_KEYBLOCK_FLAG_RECOVERY_0)) != 0
  if rec_flag_ok = false ∧ need_kb = true then
    ⟨sd, some Vb2Error.keyblockRecFlag, tr⟩
  else
  let keyblock_valid := keyblock_valid && rec_flag_ok
  vblock_check_key_version ctx sd kb need_kb keyblock_valid tr

/-- vb2_verify_kernel_vblock, lines 132-309 of vboot_kernel.c: unpack the
kernel subkey, clear the kernel-signed flag, verify the keyblock by
signature (falling back to hash-only when a valid keyblock is not required),
then run the flag, version, developer-hash and preamble sections. -/
def vb2_verify_kernel_vblock (ctx : Ctx) (sd0 : SharedData) (kb : Vblock) :
    VblockResult :=
  let need_kb := need_valid_keyblock ctx
  -- Unpack kernel subkey
  if ctx.subkey_unpack_ok = false then
    ⟨sd0, some Vb2Error.vblockKernelSubkey, []⟩
  else
  -- Clear any previous keyblock-valid flag
  let sd := { sd0 with flag_kernel_signed := false }
  -- Verify the keyblock (signature, then possibly hash-only)
  if kb.keyblock_sig_ok = false ∧ need_kb = true then
    ⟨sd, some Vb2Error.keyblockSig, [CryptoOp.keyblockSigVerify]⟩
  else if kb.keyblock_sig_ok = false ∧ kb.keyblock_hash_ok = false then
    ⟨sd, some Vb2Error.keyblockHash,
      [CryptoOp.keyblockSigVerify, CryptoOp.keyblockHashVerify]⟩
  else
    vblock_check_flags ctx sd kb need_kb kb.keyblock_sig_ok
      (if kb.keyblock_sig_ok then [CryptoOp.keyblockSigVerify]
       else [CryptoOp.keyblockSigVerify, CryptoOp.keyblockHashVerify])

/-- LoadKernelParams: the in/out parameter block of LoadKernel.  The
kernel_buffer pointer is modelled by whether it is non-NULL. -/
structure LoadKernelParams where
  partition_number : Nat
  bootloader_address : Nat
  bootloader_size : Nat
  flags : Nat
  partition_guid : Option Nat
  kernel_buffer : Bool              -- params->kernel_buffer != NULL
  kernel_buffer_size : Nat

/-- One candidate kernel partition yielded by GptNextKernelEntry, with the
outcomes of the stream operations on it. -/
structure Candidate where
  stream_open_ok : Bool             -- VbExStreamOpen
  read_vblock_ok : Bool             -- VbExStreamRead of the KBUF_SIZE prefix
  read_body_ok : Bool               -- VbExStreamRead of the body remainder
  vblock : Vblock
  unique_guid : Nat                 -- GetCurrentKernelUniqueGuid

/-- Result of vb2_load_partition. -/
structure LoadPartitionResult where
  sd : SharedData
  params : LoadKernelParams
  result : Option Vb2Error

/-- Body-loading half of vb2_load_partition (lines 354-448): everything
after the kbuf read, taking the vblock verification outcome v. -/
def load_partition_body (c : Candidate) (vblock_only : Bool)
    (v : VblockResult) (params : LoadKernelParams) : LoadPartitionResult :=
  if v.result.isSome then
    ⟨v.sd, params, some Vb2Error.loadPartitionVerifyVblock⟩
  else if vblock_only then
    ⟨v.sd, params, none⟩
  else
  -- Kernel body must start at or before what was read into kbuf
  let body_offset := c.vblock.keyblock_size + c.vblock.preamble_size
  if body_offset > KBUF_SIZE then
    ⟨v.sd, params, some Vb2Error.loadPartitionBodyOffset⟩
  else if params.kernel_buffer = true ∧
      c.vblock.body_sig_data_size > params.kernel_buffer_size then
    ⟨v.sd, params, some Vb2Error.loadPartitionBodySize⟩
  else
  -- Copy the already-read part of the body, stream the remainder
  let body_copied := min (KBUF_SIZE - body_offset) c.vblock.body_sig_data_size
  let body_toread := c.vblock.body_sig_data_size - body_copied
  if body_toread ≠ 0 ∧ c.read_body_ok = false then
    ⟨v.sd, params, some Vb2Error.loadPartitionReadBody⟩
  else if c.vblock.data_key_unpack_ok = false then
    ⟨v.sd, params, some Vb2Error.loadPartitionDataKey⟩
  else if c.vblock.body_sig_ok = false then
    ⟨v.sd, params, some Vb2Error.loadPartitionVerifyBody⟩
  else
  -- Partition is good: save kernel data back to parameters
  let params := { params with
    bootloader_address := c.vblock.bootloader_address,
    bootloader_size := c.vblock.bootloader_size,
    flags := c.vblock.preamble_flags }
  let params := if params.kernel_buffer = false then
      { params with kernel_buffer := true,
                    kernel_buffer_size := c.vblock.body_sig_data_size }
    else params
  ⟨v.sd, params, none⟩

/-- vb2_load_partition, lines 333-449 of vboot_kernel.c.  vblock_only models
flags & VB2_LOAD_PARTITION_VBLOCK_ONLY. -/
def vb2_load_partition (ctx : Ctx) (c : Candidate) (vblock_only : Bool)
    (sd : SharedData) (params : LoadKernelParams) : LoadPartitionResult :=
  -- Allocate kernel header buffer in workbuf, read the KBUF_SIZE prefix,
  -- verify the vblock, then load and verify the body
  if ctx.workbuf_alloc_ok = false then
    ⟨sd, params, some Vb2Error.loadPartitionWorkbuf⟩
  else if c.read_vblock_ok = false then
    ⟨sd, params, some Vb2Error.loadPartitionReadVblock⟩
  else
    load_partition_body c vblock_only (vb2_verify_kernel_vblock ctx sd
      c.vblock) params

/-- Ghost record of GptUpdateKernelEntry calls made during the scan. -/
inductive GptMark where
  | badEntry                        -- GPT_UPDATE_ENTRY_BAD
  | tryEntry                        -- GPT_UPDATE_ENTRY_TRY
  deriving DecidableEq

/-- State threaded through the candidate loop of LoadKernel.  accepted_obs
and chosen_composite are ghost observers: accepted_obs records, per candidate
whose vb2_load_partition call succeeded, the pair (keyblock signed,
sd->kernel_version); chosen_composite records sd->kernel_version at the
moment params->partition_number is set. -/
structure ScanState where
  sd : SharedData
  params : LoadKernelParams
  found_partitions : Nat
  lowest_version : Nat
  gpt_marks : List GptMark
  accepted_obs : List (Bool × Nat)
  chosen_composite : Option Nat

/-- One iteration of the while(GptNextKernelEntry) loop, lines 501-604.
idx is gpt.current_kernel for this entry.  Returns the updated state and
whether the loop breaks after this candidate. -/
def process_candidate (ctx : Ctx) (idx : Nat) (c : Candidate)
    (st0 : ScanState) : ScanState × Bool :=
  -- Found at least one kernel partition
  let st := { st0 with found_partitions := st0.found_partitions + 1 }
  if c.stream_open_ok = false then
    -- Partition error getting stream: mark invalid, continue
    ({ st with gpt_marks := st.gpt_marks ++ [GptMark.badEntry] }, false)
  else
  let vblock_only : Bool := decide (st.params.partition_number > 0)
  let lp := vb2_load_partition ctx c vblock_only st.sd st.params
  if lp.result.isSome then
    -- Marking kernel as invalid, continue
    ({ st with sd := lp.sd, params := lp.params,
               gpt_marks := st.gpt_marks ++ [GptMark.badEntry] }, false)
  else
  let keyblock_valid := lp.sd.flag_kernel_signed
  -- Track lowest version from a valid header
  let lowest :=
    if keyblock_valid = true ∧ st.lowest_version > lp.sd.kernel_version
    then lp.sd.kernel_version else st.lowest_version
  let st := { st with
    sd := lp.sd, params := lp.params, lowest_version := lowest,
    accepted_obs :=
      st.accepted_obs ++ [(keyblock_valid, lp.sd.kernel_version)] }
  -- If only looking at headers, done with this partition
  if vblock_only then (st, false)
  else
  -- Found a partition we like: record it (1-based) and its GUID;
  -- mark the entry as the one being tried unless NOFAIL_BOOT
  let st := { st with
    params := { st.params with
                partition_number := idx + 1,
                partition_guid := some c.unique_guid },
    chosen_composite := some lp.sd.kernel_version,
    gpt_marks := st.gpt_marks ++
      (if ctx.nofail_boot then [] else [GptMark.tryEntry]) }
  if get_boot_mode ctx = Vb2BootMode.recovery ∨ keyblock_valid = false then
    -- In recovery mode or dev-signed kernel: stop at first valid kernel
    (st, true)
  else if lp.sd.kernel_version = lp.sd.kernel_version_secdata then
    -- Same kernel version: TPM need not be updated, stop
    (st, true)
  else
    -- Keep scanning for a possibly lower-versioned signed candidate
    (st, false)

/-- The while(GptNextKernelEntry) loop over the remaining candidates. -/
def scan_kernel_entries (ctx : Ctx) : Nat → List Candidate → ScanState →
    ScanState
  | _, [], st => st
  | idx, c :: rest, st =>
    let r := process_candidate ctx idx c st
    if r.2 then r.1 else scan_kernel_entries ctx (idx + 1) rest r.1

/-- The disk as seen by LoadKernel: GPT read/parse outcomes and the kernel
entries GptNextKernelEntry would yield in order. -/
structure Disk where
  gpt_read_ok : Bool                -- AllocAndReadGptData
  gpt_init_ok : Bool                -- GptInit
  entries : List Candidate

/-- Result of LoadKernel.  published is a ghost observer: the value stored
into sd->kernel_version by the end-of-scan counter update, if that store
happened. -/
structure LoadKernelResult where
  rv : LkResult
  sd : SharedData
  params : LoadKernelParams
  found_partitions : Nat
  lowest_version : Nat
  gpt_marks : List GptMark
  accepted_obs : List (Bool × Nat)
  chosen_composite : Option Nat
  published : Option Nat
  gpt_written_back : Bool           -- WriteAndFreeGptData ran

/-- End-of-scan section of LoadKernel (gpt_done, lines 606-632): write back
the GPT, publish a new counter target when one was found, and pick the
return code. -/
def load_kernel_finish (st : ScanState) : LoadKernelResult :=
  if st.params.partition_number > 0 then
    -- Only store a new TPM version if one was found
    let publish : Bool :=
      decide (st.lowest_version ≠ LOWEST_TPM_VERSION ∧
              st.lowest_version > st.sd.kernel_version_secdata)
    let sd := if publish then { st.sd with kernel_version := st.lowest_version }
              else st.sd
    { rv := LkResult.success, sd := sd, params := st.params,
      found_partitions := st.found_partitions,
      lowest_version := st.lowest_version, gpt_marks := st.gpt_marks,
      accepted_obs := st.accepted_obs,
      chosen_composite := st.chosen_composite,
      published := if publish then some st.lowest_version else none,
      gpt_written_back := true }
  else if st.found_partitions > 0 then
    { rv := LkResult.invalidKernelFound, sd := st.sd, params := st.params,
      found_partitions := st.found_partitions,
      lowest_version := st.lowest_version, gpt_marks := st.gpt_marks,
      accepted_obs := st.accepted_obs,
      chosen_composite := st.chosen_composite, published := none,
      gpt_written_back := true }
  else
    { rv := LkResult.noKernelFound, sd := st.sd, params := st.params,
      found_partitions := st.found_partitions,
      lowest_version := st.lowest_version, gpt_marks := st.gpt_marks,
      accepted_obs := st.accepted_obs,
      chosen_composite := st.chosen_composite, published := none,
      gpt_written_back := true }

/-- LoadKernel, lines 451-633 of vboot_kernel.c. -/
def LoadKernel (ctx : Ctx) (sd0 : SharedData) (disk : Disk)
    (params0 : LoadKernelParams) : LoadKernelResult :=
  -- Clear output params in case we fail
  let params := { params0 with
    partition_number := 0, bootloader_address := 0,
    bootloader_size := 0, flags := 0 }
  let st0 : ScanState :=
    { sd := sd0, params := params, found_partitions := 0,
      lowest_version := LOWEST_TPM_VERSION, gpt_marks := [],
      accepted_obs := [], chosen_composite := none }
  -- Read GPT data and initialize the GPT library; on failure skip the loop,
  -- then run the gpt_done section
  load_kernel_finish
    (if disk.gpt_read_ok = false then st0
     else if disk.gpt_init_ok = false then st0
     else scan_kernel_entries ctx 0 disk.entries st0)

/-- kBootStateSHA1Digests, from 2tpm_bootmode.c. -/
def kBootStateSHA1Digests : List (List Nat) :=
  [ -- SHA1(0x00|0x00|0x01)
    [0x25, 0x47, 0xcc, 0x73, 0x6e, 0x95, 0x1f, 0xa4, 0x91, 0x98, 0x53, 0xc4,
     0x3a, 0xe8, 0x90, 0x86, 0x1a, 0x3b, 0x32, 0x64],
    -- SHA1(0x01|0x00|0x01)
    [0xc4, 0x2a, 0xc1, 0xc4, 0x6f, 0x1d, 0x4e, 0x21, 0x1c, 0x73, 0x5c, 0xc7,
     0xdf, 0xad, 0x4f, 0xf8, 0x39, 0x11, 0x10, 0xe9],
    -- SHA1(0x00|0x01|0x00)
    [0x62, 0x57, 0x18, 0x91, 0x21, 0x5b, 0x4e, 0xfc, 0x1c, 0xea, 0xb7, 0x44,
     0xce, 0x59, 0xdd, 0x0b, 0x66, 0xea, 0x6f, 0x73],
    -- SHA1(0x01|0x01|0x00)
    [0x47, 0xec, 0x8d, 0x98, 0x36, 0x64, 0x33, 0xdc, 0x00, 0x2e, 0x77, 0x21,
     0xc9, 0xe3, 0x7d, 0x50, 0x67, 0x54, 0x79, 0x37] ]

/-- vb2_get_boot_state_digest, from 2tpm_bootmode.c. -/
def vb2_get_boot_state_digest (ctx : Ctx) : List Nat :=
  kBootStateSHA1Digests.getD
    ((if ctx.recovery_mode then 2 else 0) +
     (if ctx.developer_mode then 1 else 0)) []

/-- Modelled from the spec (section 4.9): the digest table as the spec
prints it.  The row for (recovery=1, developer=0) is printed there as the
41-hex-digit string 625718917215b4efc1ceab744ce59dd0b66ea6f73; per the
footnote of the spec only the first 20 bytes are normative, so that row is
its first 40 hex digits decoded. -/
def specBootStateDigestTable : List (List Nat) :=
  [ [0x25, 0x47, 0xcc, 0x73, 0x6e, 0x95, 0x1f, 0xa4, 0x91, 0x98, 0x53, 0xc4,
     0x3a, 0xe8, 0x90, 0x86, 0x1a, 0x3b, 0x32, 0x64],
    [0xc4, 0x2a, 0xc1, 0xc4, 0x6f, 0x1d, 0x4e, 0x21, 0x1c, 0x73, 0x5c, 0xc7,
     0xdf, 0xad, 0x4f, 0xf8, 0x39, 0x11, 0x10, 0xe9],
    [0x62, 0x57, 0x18, 0x91, 0x72, 0x15, 0xb4, 0xef, 0xc1, 0xce, 0xab, 0x74,
     0x4c, 0xe5, 0x9d, 0xd0, 0xb6, 0x6e, 0xa6, 0xf7],
    [0x47, 0xec, 0x8d, 0x98, 0x36, 0x64, 0x33, 0xdc, 0x00, 0x2e, 0x77, 0x21,
     0xc9, 0xe3, 0x7d, 0x50, 0x67, 0x54, 0x79, 0x37] ]

/-- One update step of the lowest-version tracker, exactly as lines 547-549
do it: a signed observation lowers the running value when below it. -/
def track_lowest (acc : Nat) (o : Bool × Nat) : Nat :=
  if o.1 = true ∧ acc > o.2 then o.2 else acc

/-- Running the lowest-version tracker over an accepted-candidate trace from
its initial value LOWEST_TPM_VERSION. -/
def lowest_signed_version (obs : List (Bool × Nat)) : Nat :=
  obs.foldl track_lowest LOWEST_TPM_VERSION

/-! Concrete example inputs used by the closed theorems below. -/

/-- Developer-mode context with all external oracles succeeding and no
signed-kernel-only policy flags. -/
def exCtxDev : Ctx where
  recovery_mode := false
  developer_mode := true
  nofail_boot := false
  hwcrypto_allowed := false
  subkey_unpack_ok := true
  workbuf_alloc_ok := true
  fwmp_dev_enable_official_only := false
  fwmp_dev_use_key_hash := false
  fwmp_dev_key_hash_present := false
  nv_dev_boot_signed_only := false

/-- Normal-mode context. -/
def exCtxNormal : Ctx := { exCtxDev with developer_mode := false }

/-- Recovery-mode context. -/
def exCtxRec : Ctx :=
  { exCtxDev with developer_mode := false, recovery_mode := true }

/-- Shared data whose secured counter is n. -/
def exSd (n : Nat) : SharedData :=
  { flag_kernel_signed := false, kernel_version := 0,
    kernel_version_secdata := n }

/-- A vblock with given keyblock flags, key version and preamble kernel
version, on which every crypto primitive succeeds. -/
def exVb (fl kv pv : Nat) : Vblock where
  keyblock_flags := fl
  data_key_version := kv
  keyblock_size := 100
  preamble_size := 200
  preamble_kernel_version := pv
  body_sig_data_size := 50
  bootloader_address := 111
  bootloader_size := 222
  preamble_flags := 3
  keyblock_sig_ok := true
  keyblock_hash_ok := true
  data_key_unpack_ok := true
  preamble_sig_ok := true
  body_sig_ok := true
  dev_key_hash_match := true

/-- A self-signed vblock: signature fails, hash verifies. -/
def exVbSelfSigned : Vblock := { exVb 6 0 5 with keyblock_sig_ok := false }

/-- A vblock whose data-key version exceeds 0xFFFF (recovery flags set). -/
def exVbBigKey : Vblock := exVb 9 0x10000 1

/-- A candidate whose streams all succeed, holding the given vblock data. -/
def exCand (fl kv pv : Nat) : Candidate where
  stream_open_ok := true
  read_vblock_ok := true
  read_body_ok := true
  vblock := exVb fl kv pv
  unique_guid := 42

/-- Caller parameter block with stale nonzero outputs and no preallocated
kernel buffer. -/
def exParams : LoadKernelParams where
  partition_number := 7
  bootloader_address := 9
  bootloader_size := 9
  flags := 9
  partition_guid := none
  kernel_buffer := false
  kernel_buffer_size := 0

/-- Parameter block as LoadKernel clears it at entry. -/
def exParamsCleared : LoadKernelParams where
  partition_number := 0
  bootloader_address := 0
  bootloader_size := 0
  flags := 0
  partition_guid := none
  kernel_buffer := false
  kernel_buffer_size := 0

/-- A disk with a readable, parsable GPT holding one kernel entry. -/
def exDisk (c : Candidate) : Disk :=
  { gpt_read_ok := true, gpt_init_ok := true, entries := [c] }

/-- A disk with a readable, parsable GPT and no kernel entries. -/
def exDiskEmpty : Disk :=
  { gpt_read_ok := true, gpt_init_ok := true, entries := [] }

/-- Scan state at loop entry over a secured counter of 5. -/
def exScanStart : ScanState where
  sd := exSd 5
  params := exParamsCleared
  found_partitions := 0
  lowest_version := LOWEST_TPM_VERSION
  gpt_marks := []
  accepted_obs := []
  chosen_composite := none

/-! Helper lemmas about the vblock verification stages. -/

theorem preamble_stage_secdata (ctx sd kb need_kb kv tr) :
    (vblock_verify_preamble ctx sd kb need_kb kv tr).sd.kernel_version_secdata
      = sd.kernel_version_secdata := by
  simp only [vblock_verify_preamble]
  split_ifs <;> simp

theorem dev_hash_stage_secdata (ctx sd kb need_kb kv tr) :
    (vblock_check_dev_key_hash ctx sd kb need_kb kv
        tr).sd.kernel_version_secdata = sd.kernel_version_secdata := by
  simp only [vblock_check_dev_key_hash]
  split_ifs <;> simp [preamble_stage_secdata]

theorem key_version_stage_secdata (ctx sd kb need_kb kv tr) :
    (vblock_check_key_version ctx sd kb need_kb kv
        tr).sd.kernel_version_secdata = sd.kernel_version_secdata := by
  simp only [vblock_check_key_version]
  split_ifs <;> simp [dev_hash_stage_secdata]

theorem flags_stage_secdata (ctx sd kb need_kb kv tr) :
    (vblock_check_flags ctx sd kb need_kb kv tr).sd.kernel_version_secdata
      = sd.kernel_version_secdata := by
  simp only [vblock_check_flags]
  split_ifs <;> simp [key_version_stage_secdata]

theorem vblock_secdata (ctx sd kb) :
    (vb2_verify_kernel_vblock ctx sd kb).sd.kernel_version_secdata
      = sd.kernel_version_secdata := by
  simp only [vb2_verify_kernel_vblock]
  split_ifs <;> simp [flags_stage_secdata]

theorem preamble_stage_ge (ctx sd kb need_kb kv tr)
    (hres : (vblock_verify_preamble ctx sd kb need_kb kv tr).result = none)
    (hneed : need_kb = true)
    (hmode : get_boot_mode ctx ≠ Vb2BootMode.recovery) :
    sd.kernel_version_secdata ≤
      (vblock_verify_preamble ctx sd kb need_kb kv tr).sd.kernel_version := by
  simp only [vblock_verify_preamble] at *
  split_ifs at hres ⊢ <;> simp_all

theorem dev_hash_stage_ge (ctx sd kb need_kb kv tr)
    (hres : (vblock_check_dev_key_hash ctx sd kb need_kb kv tr).result = none)
    (hneed : need_kb = true)
    (hmode : get_boot_mode ctx ≠ Vb2BootMode.recovery) :
    sd.kernel_version_secdata ≤
      (vblock_check_dev_key_hash ctx sd kb need_kb kv
        tr).sd.kernel_version := by
  simp only [vblock_check_dev_key_hash] at *
  split_ifs at hres ⊢ <;>
    first
    | exact preamble_stage_ge _ _ _ _ _ _ hres hneed hmode
    | simp_all

theorem key_version_stage_ge (ctx sd kb need_kb kv tr)
    (hres : (vblock_check_key_version ctx sd kb need_kb kv tr).result = none)
    (hneed : need_kb = true)
    (hmode : get_boot_mode ctx ≠ Vb2BootMode.recovery) :
    sd.kernel_version_secdata ≤
      (vblock_check_key_version ctx sd kb need_kb kv
        tr).sd.kernel_version := by
  simp only [vblock_check_key_version] at *
  split_ifs at hres ⊢ <;>
    first
    | exact dev_hash_stage_ge _ _ _ _ _ _ hres hneed hmode
    | simp_all

theorem flags_stage_ge (ctx sd kb need_kb kv tr)
    (hres : (vblock_check_flags ctx sd kb need_kb kv tr).result = none)
    (hneed : need_kb = true)
    (hmode : get_boot_mode ctx ≠ Vb2BootMode.recovery) :
    sd.kernel_version_secdata ≤
      (vblock_check_flags ctx sd kb need_kb kv tr).sd.kernel_version := by
  simp only [vblock_check_flags] at *
  split_ifs at hres ⊢ <;>
    first
    | exact key_version_stage_ge _ _ _ _ _ _ hres hneed hmode
    | simp_all

theorem preamble_stage_rec (ctx sd kb need_kb kv tr)
    (h : get_boot_mode ctx = Vb2BootMode.recovery) :
    (vblock_verify_preamble ctx sd kb need_kb kv tr).result ≠
        some Vb2Error.keyblockVersionRollback ∧
    (vblock_verify_preamble ctx sd kb need_kb kv tr).result ≠
        some Vb2Error.preambleVersionRollback := by
  simp only [vblock_verify_preamble]
  split_ifs <;> simp_all

theorem dev_hash_stage_rec (ctx sd kb need_kb kv tr)
    (h : get_boot_mode ctx = Vb2BootMode.recovery) :
    (vblock_check_dev_key_hash ctx sd kb need_kb kv tr).result ≠
        some Vb2Error.keyblockVersionRollback ∧
    (vblock_check_dev_key_hash ctx sd kb need_kb kv tr).result ≠
        some Vb2Error.preambleVersionRollback := by
  simp only [vblock_check_dev_key_hash]
  split_ifs <;> first
    | exact preamble_stage_rec _ _ _ _ _ _ h
    | simp_all

theorem key_version_stage_rec (ctx sd kb need_kb kv tr)
    (h : get_boot_mode ctx = Vb2BootMode.recovery) :
    (vblock_check_key_version ctx sd kb need_kb kv tr).result ≠
        some Vb2Error.keyblockVersionRollback ∧
    (vblock_check_key_version ctx sd kb need_kb kv tr).result ≠
        some Vb2Error.preambleVersionRollback := by
  simp only [vblock_check_key_version]
  split_ifs <;> first
    | exact dev_hash_stage_rec _ _ _ _ _ _ h
    | simp_all

theorem flags_stage_rec (ctx sd kb need_kb kv tr)
    (h : get_boot_mode ctx = Vb2BootMode.recovery) :
    (vblock_check_flags ctx sd kb need_kb kv tr).result ≠
        some Vb2Error.keyblockVersionRollback ∧
    (vblock_check_flags ctx sd kb need_kb kv tr).result ≠
        some Vb2Error.preambleVersionRollback := by
  simp only [vblock_check_flags]
  split_ifs <;> first
    | exact key_version_stage_rec _ _ _ _ _ _ h
    | simp_all

theorem preamble_stage_pv_range (ctx sd kb need_kb kv tr)
    (hpv : kb.preamble_kernel_version > VB2_MAX_PREAMBLE_VERSION) :
    (vblock_verify_preamble ctx sd kb need_kb kv tr).result ≠ none := by
  simp only [vblock_verify_preamble]
  split_ifs <;> simp_all

theorem dev_hash_stage_pv_range (ctx sd kb need_kb kv tr)
    (hpv : kb.preamble_kernel_version > VB2_MAX_PREAMBLE_VERSION) :
    (vblock_check_dev_key_hash ctx sd kb need_kb kv tr).result ≠ none := by
  simp only [vblock_check_dev_key_hash]
  split_ifs <;> first
    | exact preamble_stage_pv_range _ _ _ _ _ _ hpv
    | simp_all

theorem key_version_stage_pv_range (ctx sd kb need_kb kv tr)
    (hpv : kb.preamble_kernel_version > VB2_MAX_PREAMBLE_VERSION) :
    (vblock_check_key_version ctx sd kb need_kb kv tr).result ≠ none := by
  simp only [vblock_check_key_version]
  split_ifs <;> first
    | exact dev_hash_stage_pv_range _ _ _ _ _ _ hpv
    | simp_all

theorem flags_stage_pv_range (ctx sd kb need_kb kv tr)
    (hpv : kb.preamble_kernel_version > VB2_MAX_PREAMBLE_VERSION) :
    (vblock_check_flags ctx sd kb need_kb kv tr).result ≠ none := by
  simp only [vblock_check_flags]
  split_ifs <;> first
    | exact key_version_stage_pv_range _ _ _ _ _ _ hpv
    | simp_all

theorem vblock_pv_range (ctx sd kb)
    (hpv : kb.preamble_kernel_version > VB2_MAX_PREAMBLE_VERSION) :
    (vb2_verify_kernel_vblock ctx sd kb).result ≠ none := by
  simp only [vb2_verify_kernel_vblock]
  split_ifs <;> first
    | exact flags_stage_pv_range _ _ _ _ _ _ hpv
    | simp_all

theorem key_version_stage_kv_range (ctx sd kb need_kb kv tr)
    (hkv : kb.data_key_version > VB2_MAX_KEY_VERSION)
    (hmode : get_boot_mode ctx ≠ Vb2BootMode.recovery)
    (hneed : need_kb = true) :
    (vblock_check_key_version ctx sd kb need_kb kv tr).result ≠ none := by
  simp only [vblock_check_key_version]
  split_ifs <;> simp_all

theorem flags_stage_kv_range (ctx sd kb need_kb kv tr)
    (hkv : kb.data_key_version > VB2_MAX_KEY_VERSION)
    (hmode : get_boot_mode ctx ≠ Vb2BootMode.recovery)
    (hneed : need_kb = true) :
    (vblock_check_flags ctx sd kb need_kb kv tr).result ≠ none := by
  simp only [vblock_check_flags]
  split_ifs <;> first
    | exact key_version_stage_kv_range _ _ _ _ _ _ hkv hmode hneed
    | simp_all

theorem vblock_kv_range (ctx sd kb)
    (hkv : kb.data_key_version > VB2_MAX_KEY_VERSION)
    (hmode : get_boot_mode ctx ≠ Vb2BootMode.recovery)
    (hneed : need_valid_keyblock ctx = true) :
    (vb2_verify_kernel_vblock ctx sd kb).result ≠ none := by
  simp only [vb2_verify_kernel_vblock]
  split_ifs <;> first
    | exact flags_stage_kv_range _ _ _ _ _ _ hkv hmode hneed
    | simp_all

theorem preamble_stage_trace (ctx sd kb need_kb kv tr) :
    (vblock_verify_preamble ctx sd kb need_kb kv tr).trace = tr ∨
    (vblock_verify_preamble ctx sd kb need_kb kv tr).trace =
      tr ++ [CryptoOp.preambleSigVerify] := by
  simp only [vblock_verify_preamble]
  split_ifs <;> simp

theorem dev_hash_stage_trace (ctx sd kb need_kb kv tr) :
    (vblock_check_dev_key_hash ctx sd kb need_kb kv tr).trace = tr ∨
    (vblock_check_dev_key_hash ctx sd kb need_kb kv tr).trace =
      tr ++ [CryptoOp.preambleSigVerify] := by
  simp only [vblock_check_dev_key_hash]
  split_ifs <;> first
    | exact preamble_stage_trace _ _ _ _ _ _
    | simp

theorem key_version_stage_trace (ctx sd kb need_kb kv tr) :
    (vblock_check_key_version ctx sd kb need_kb kv tr).trace = tr ∨
    (vblock_check_key_version ctx sd kb need_kb kv tr).trace =
      tr ++ [CryptoOp.preambleSigVerify] := by
  simp only [vblock_check_key_version]
  split_ifs <;> first
    | exact dev_hash_stage_trace _ _ _ _ _ _
    | simp

theorem flags_stage_trace (ctx sd kb need_kb kv tr) :
    (vblock_check_flags ctx sd kb need_kb kv tr).trace = tr ∨
    (vblock_check_flags ctx sd kb need_kb kv tr).trace =
      tr ++ [CryptoOp.preambleSigVerify] := by
  simp only [vblock_check_flags]
  split_ifs <;> first
    | exact key_version_stage_trace _ _ _ _ _ _
    | simp

theorem vblock_trace_shapes (ctx sd kb) :
    (vb2_verify_kernel_vblock ctx sd kb).trace = [] ∨
    (vb2_verify_kernel_vblock ctx sd kb).trace =
      [CryptoOp.keyblockSigVerify] ∨
    (vb2_verify_kernel_vblock ctx sd kb).trace =
      [CryptoOp.keyblockSigVerify, CryptoOp.preambleSigVerify] ∨
    (vb2_verify_kernel_vblock ctx sd kb).trace =
      [CryptoOp.keyblockSigVerify, CryptoOp.keyblockHashVerify] ∨
    (vb2_verify_kernel_vblock ctx sd kb).trace =
      [CryptoOp.keyblockSigVerify, CryptoOp.keyblockHashVerify,
       CryptoOp.preambleSigVerify] := by
  simp only [vb2_verify_kernel_vblock]
  split_ifs <;>
    first
      | simp
      | (rcases flags_stage_trace ctx _ kb _ _ _ with h | h <;> rw [h] <;>
          simp)

theorem vblock_sig_fail_need (ctx sd kb)
    (hunpack : ctx.subkey_unpack_ok = true)
    (hsig : kb.keyblock_sig_ok = false)
    (hneed : need_valid_keyblock ctx = true) :
    (vb2_verify_kernel_vblock ctx sd kb).result = some Vb2Error.keyblockSig ∧
    (vb2_verify_kernel_vblock ctx sd kb).trace =
      [CryptoOp.keyblockSigVerify] := by
  simp only [vb2_verify_kernel_vblock]
  split_ifs <;> simp_all

theorem vblock_sig_fail_noneed_hash_attempt (ctx sd kb)
    (hunpack : ctx.subkey_unpack_ok = true)
    (hsig : kb.keyblock_sig_ok = false)
    (hneed : need_valid_keyblock ctx = false) :
    CryptoOp.keyblockHashVerify ∈
      (vb2_verify_kernel_vblock ctx sd kb).trace := by
  simp only [vb2_verify_kernel_vblock]
  split_ifs <;>
    first
      | (rcases flags_stage_trace ctx _ kb _ _ _ with h | h <;> rw [h] <;>
          simp_all)
      | simp_all

theorem vblock_sig_hash_fail (ctx sd kb)
    (hunpack : ctx.subkey_unpack_ok = true)
    (hsig : kb.keyblock_sig_ok = false)
    (hneed : need_valid_keyblock ctx = false)
    (hhash : kb.keyblock_hash_ok = false) :
    (vb2_verify_kernel_vblock ctx sd kb).result =
      some Vb2Error.keyblockHash := by
  simp only [vb2_verify_kernel_vblock]
  split_ifs <;> simp_all

theorem vblock_success_ge (ctx sd kb)
    (hres : (vb2_verify_kernel_vblock ctx sd kb).result = none)
    (hneed : need_valid_keyblock ctx = true)
    (hmode : get_boot_mode ctx ≠ Vb2BootMode.recovery) :
    sd.kernel_version_secdata ≤
      (vb2_verify_kernel_vblock ctx sd kb).sd.kernel_version := by
  simp only [vb2_verify_kernel_vblock] at *
  split_ifs at hres ⊢ <;>
    first
    | exact flags_stage_ge _ _ _ _ _ _ hres hneed hmode
    | simp_all

theorem lpb_secdata (c vo v params) :
    (load_partition_body c vo v params).sd.kernel_version_secdata =
      v.sd.kernel_version_secdata := by
  simp only [load_partition_body]
  split_ifs <;> simp

theorem lp_secdata (ctx c vo sd params) :
    (vb2_load_partition ctx c vo sd params).sd.kernel_version_secdata =
      sd.kernel_version_secdata := by
  simp only [vb2_load_partition]
  split_ifs <;> simp [lpb_secdata, vblock_secdata]

theorem lpb_params_cases (c vo v params) :
    (load_partition_body c vo v params).params = params ∨
    ((load_partition_body c vo v params).result = none ∧ vo = false) := by
  simp only [load_partition_body]
  split_ifs <;> simp_all

theorem lp_params_cases (ctx c vo sd params) :
    (vb2_load_partition ctx c vo sd params).params = params ∨
    ((vb2_load_partition ctx c vo sd params).result = none ∧ vo = false) := by
  simp only [vb2_load_partition]
  split_ifs <;> first
    | exact lpb_params_cases _ _ _ _
    | simp

theorem lpb_success (c v params)
    (h : (load_partition_body c false v params).result = none) :
    v.result = none ∧ (load_partition_body c false v params).sd = v.sd := by
  simp only [load_partition_body] at h ⊢
  split_ifs at h ⊢ <;> simp_all

theorem lp_full_success (ctx c sd params)
    (h : (vb2_load_partition ctx c false sd params).result = none) :
    (vb2_verify_kernel_vblock ctx sd c.vblock).result = none ∧
    (vb2_load_partition ctx c false sd params).sd =
      (vb2_verify_kernel_vblock ctx sd c.vblock).sd := by
  simp only [vb2_load_partition] at h ⊢
  split_ifs at h ⊢ <;> first
    | exact lpb_success _ _ _ h
    | simp_all

theorem lp_full_success_ge (ctx c sd params)
    (h : (vb2_load_partition ctx c false sd params).result = none)
    (hneed : need_valid_keyblock ctx = true)
    (hmode : get_boot_mode ctx ≠ Vb2BootMode.recovery) :
    sd.kernel_version_secdata ≤
      (vb2_load_partition ctx c false sd params).sd.kernel_version := by
  obtain ⟨hv, hsd⟩ := lp_full_success ctx c sd params h
  rw [hsd]
  exact vblock_success_ge ctx sd c.vblock hv hneed hmode

theorem pc_secdata (ctx idx c st) :
    (process_candidate ctx idx c st).1.sd.kernel_version_secdata =
      st.sd.kernel_version_secdata := by
  simp only [process_candidate]
  split_ifs <;> simp [lp_secdata]

theorem pc_chosen (ctx idx c st) (K : Nat)
    (hneed : need_valid_keyblock ctx = true)
    (hmode : get_boot_mode ctx ≠ Vb2BootMode.recovery)
    (hsec : st.sd.kernel_version_secdata = K)
    (hch : ∀ w, st.chosen_composite = some w → K ≤ w) :
    ∀ w, (process_candidate ctx idx c st).1.chosen_composite = some w →
      K ≤ w := by
  intro w hw
  simp only [process_candidate] at hw
  split_ifs at hw with h1 h2 h3 h4 h5 <;>
    first
      | exact hch w hw
      | (have h3f : decide (st.params.partition_number > 0) = false := by
          simpa using h3
         rw [h3f] at h2 hw
         have h2n : (vb2_load_partition ctx c false st.sd
             st.params).result = none := by
           rcases hres : (vb2_load_partition ctx c false st.sd
             st.params).result with _ | e
           · rfl
           · exact absurd (by simp [hres]) h2
         simp only [Option.some.injEq] at hw
         subst hw
         rw [← hsec]
         exact lp_full_success_ge ctx c st.sd st.params h2n hneed hmode)

theorem pc_params (ctx idx c st)
    (h : (process_candidate ctx idx c st).1.params.partition_number = 0) :
    (process_candidate ctx idx c st).1.params = st.params := by
  have hp := lp_params_cases ctx c
    (decide (st.params.partition_number > 0)) st.sd st.params
  simp only [process_candidate] at h ⊢
  split_ifs at h ⊢ with h1 h2 h3 h4 h5 <;>
    first
      | rfl
      | (rcases hp with hp | ⟨hpr, hpv⟩ <;> simp_all)
      | ((simp at h) <;> done)

theorem lsv_append (obs : List (Bool × Nat)) (x : Bool × Nat) :
    lowest_signed_version (obs ++ [x]) =
      track_lowest (lowest_signed_version obs) x := by
  simp [lowest_signed_version, List.foldl_append]

theorem pc_lowest (ctx idx c st)
    (h : st.lowest_version = lowest_signed_version st.accepted_obs) :
    (process_candidate ctx idx c st).1.lowest_version =
      lowest_signed_version
        (process_candidate ctx idx c st).1.accepted_obs := by
  simp only [process_candidate]
  split_ifs <;>
    first
      | exact h
      | ((rw [lsv_append, ← h]; simp only [track_lowest]; simp_all) <;>
          (split_ifs <;> (try simp_all) <;> omega))

theorem scan_secdata (ctx) : ∀ (cs : List Candidate) (idx : Nat)
    (st : ScanState),
    (scan_kernel_entries ctx idx cs st).sd.kernel_version_secdata =
      st.sd.kernel_version_secdata := by
  intro cs
  induction cs with
  | nil => intro idx st; rfl
  | cons c rest ih =>
    intro idx st
    simp only [scan_kernel_entries]
    split
    · exact pc_secdata ctx idx c st
    · rw [ih]
      exact pc_secdata ctx idx c st

theorem scan_chosen (ctx) (K : Nat)
    (hneed : need_valid_keyblock ctx = true)
    (hmode : get_boot_mode ctx ≠ Vb2BootMode.recovery) :
    ∀ (cs : List Candidate) (idx : Nat) (st : ScanState),
      st.sd.kernel_version_secdata = K →
      (∀ w, st.chosen_composite = some w → K ≤ w) →
      ∀ w, (scan_kernel_entries ctx idx cs st).chosen_composite = some w →
        K ≤ w := by
  intro cs
  induction cs with
  | nil => intro idx st hsec hch w hw; exact hch w hw
  | cons c rest ih =>
    intro idx st hsec hch w hw
    simp only [scan_kernel_entries] at hw
    split at hw
    · exact pc_chosen ctx idx c st K hneed hmode hsec hch w hw
    · exact ih (idx + 1) _ (by rw [pc_secdata]; exact hsec)
        (pc_chosen ctx idx c st K hneed hmode hsec hch) w hw

theorem scan_params (ctx) : ∀ (cs : List Candidate) (idx : Nat)
    (st : ScanState),
    (scan_kernel_entries ctx idx cs st).params.partition_number = 0 →
    (scan_kernel_entries ctx idx cs st).params = st.params := by
  intro cs
  induction cs with
  | nil => intro idx st h; rfl
  | cons c rest ih =>
    intro idx st h
    simp only [scan_kernel_entries] at h ⊢
    by_cases hstop : (process_candidate ctx idx c st).2 = true
    · rw [if_pos hstop] at h ⊢
      exact pc_params ctx idx c st h
    · rw [if_neg hstop] at h ⊢
      have h2 := ih (idx + 1) _ h
      rw [h2] at h ⊢
      exact pc_params ctx idx c st h

theorem scan_lowest (ctx) : ∀ (cs : List Candidate) (idx : Nat)
    (st : ScanState),
    st.lowest_version = lowest_signed_version st.accepted_obs →
    (scan_kernel_entries ctx idx cs st).lowest_version =
      lowest_signed_version
        (scan_kernel_entries ctx idx cs st).accepted_obs := by
  intro cs
  induction cs with
  | nil => intro idx st h; exact h
  | cons c rest ih =>
    intro idx st h
    simp only [scan_kernel_entries]
    split
    · exact pc_lowest ctx idx c st h
    · exact ih (idx + 1) _ (pc_lowest ctx idx c st h)

theorem track_lowest_true (acc n : Nat) :
    track_lowest acc (true, n) = min acc n := by
  unfold track_lowest
  rw [min_def]
  split_ifs <;> simp_all <;> omega

theorem track_lowest_false (acc n : Nat) :
    track_lowest acc (false, n) = acc := by
  simp [track_lowest]

theorem foldl_track_eq_min : ∀ (obs : List (Bool × Nat)) (acc : Nat),
    obs.foldl track_lowest acc =
      ((obs.filter fun o => o.1).map fun o => o.2).foldl min acc := by
  intro obs
  induction obs with
  | nil => intro acc; rfl
  | cons x xs ih =>
    intro acc
    rcases x with ⟨s, n⟩
    cases s <;>
      simp [List.filter_cons, track_lowest_true, track_lowest_false, ih]

theorem finish_fields (st : ScanState) :
    (load_kernel_finish st).params = st.params ∧
    (load_kernel_finish st).found_partitions = st.found_partitions ∧
    (load_kernel_finish st).lowest_version = st.lowest_version ∧
    (load_kernel_finish st).accepted_obs = st.accepted_obs ∧
    (load_kernel_finish st).chosen_composite = st.chosen_composite := by
  simp only [load_kernel_finish]
  split_ifs <;> simp

theorem finish_trichotomy (st : ScanState) :
    ((load_kernel_finish st).rv = LkResult.success ↔
      (load_kernel_finish st).params.partition_number > 0) ∧
    ((load_kernel_finish st).rv = LkResult.invalidKernelFound ↔
      (load_kernel_finish st).params.partition_number = 0 ∧
      (load_kernel_finish st).found_partitions > 0) ∧
    ((load_kernel_finish st).rv = LkResult.noKernelFound ↔
      (load_kernel_finish st).params.partition_number = 0 ∧
      (load_kernel_finish st).found_partitions = 0) := by
  simp only [load_kernel_finish]
  split_ifs <;> simp_all <;> omega

theorem finish_published (st : ScanState) :
    (load_kernel_finish st).published =
      (if st.params.partition_number > 0 ∧
          st.lowest_version ≠ LOWEST_TPM_VERSION ∧
          st.lowest_version > st.sd.kernel_version_secdata
       then some st.lowest_version else none) := by
  simp only [load_kernel_finish]
  split_ifs <;> simp_all

theorem finish_published_ext (st : ScanState) (K : Nat)
    (hsec : st.sd.kernel_version_secdata = K) :
    (load_kernel_finish st).published =
      (if (load_kernel_finish st).params.partition_number > 0 ∧
          (load_kernel_finish st).lowest_version ≠ LOWEST_TPM_VERSION ∧
          (load_kernel_finish st).lowest_version > K
       then some ((load_kernel_finish st).lowest_version) else none) := by
  rw [finish_published, (finish_fields st).1, (finish_fields st).2.2.1, hsec]

theorem lk_params_stable (ctx sd disk params)
    (h : (LoadKernel ctx sd disk params).params.partition_number = 0) :
    (LoadKernel ctx sd disk params).params =
      { params with
        partition_number := 0, bootloader_address := 0,
        bootloader_size := 0, flags := 0 } := by
  simp only [LoadKernel] at h ⊢
  rw [(finish_fields _).1] at h ⊢
  split_ifs at h ⊢ with h1 h2
  · rfl
  · rfl
  · exact scan_params ctx disk.entries 0 _ h

/-! The ten claim theorems, with their witnesses and counterexamples. -/

/-- C1 (amended): for every LoadKernel call that returns success with a
chosen partition, if the shared-data kernel_signed flag is 1, the boot mode
is not Recovery, and the policy requires a valid keyblock
(need_valid_keyblock), then the composite version of the chosen partition is
at least the secured counter kernel_version_secdata. -/
theorem load_kernel_composite_monotonic_amended (ctx : Ctx)
    (sd : SharedData) (disk : Disk) (params : LoadKernelParams) (v : Nat)
    (hrv : (LoadKernel ctx sd disk params).rv = LkResult.success)
    (hsigned : (LoadKernel ctx sd disk params).sd.flag_kernel_signed = true)
    (hneed : need_valid_keyblock ctx = true)
    (hmode : get_boot_mode ctx ≠ Vb2BootMode.recovery)
    (hch : (LoadKernel ctx sd disk params).chosen_composite = some v) :
    sd.kernel_version_secdata ≤ v := by
  simp only [LoadKernel] at hch
  rw [(finish_fields _).2.2.2.2] at hch
  split_ifs at hch with h1 h2 <;>
    first
      | exact absurd hch (by simp)
      | exact scan_chosen ctx sd.kernel_version_secdata hneed hmode
          disk.entries 0 _ rfl (fun w hw => absurd hw (by simp)) v hch

/-- C1 (counterexample to the claim as stated): in developer mode with no
signed-kernel-only policy flags, a scan succeeds with kernel_signed = 1 and
a non-Recovery mode, yet the chosen composite version 5 is below the
secured counter 10 - the composite rollback check requires
need_valid_keyblock, which the claim omits. -/
theorem composite_monotonicity_cex :
    (LoadKernel exCtxDev (exSd 10) (exDisk (exCand 6 0 5)) exParams).rv =
      LkResult.success ∧
    (LoadKernel exCtxDev (exSd 10) (exDisk (exCand 6 0 5))
        exParams).sd.flag_kernel_signed = true ∧
    get_boot_mode exCtxDev ≠ Vb2BootMode.recovery ∧
    (LoadKernel exCtxDev (exSd 10) (exDisk (exCand 6 0 5))
        exParams).chosen_composite = some 5 ∧
    5 < (exSd 10).kernel_version_secdata := by
  decide

/-- C1 (witness): a concrete normal-mode run chooses composite 7 over
secured counter 5, instantiating the amended theorem. -/
theorem load_kernel_composite_monotonic_amended_case :
    (exSd 5).kernel_version_secdata ≤ 7 :=
  load_kernel_composite_monotonic_amended exCtxNormal (exSd 5)
    (exDisk (exCand 5 0 7)) exParams 7 (by decide) (by decide) (by decide)
    (by decide) (by decide)

/-- C2 (amended): a preamble kernel_version above 0xFFFF is rejected by the
vblock verification in every mode; a keyblock key_version above 0xFFFF is
rejected when the mode is not Recovery and the policy requires a valid
keyblock (in Recovery mode the key-version range is not checked, and
without required signing the candidate is only downgraded to unsigned). -/
theorem version_range_amended (ctx : Ctx) (sd : SharedData) (kb : Vblock) :
    (kb.preamble_kernel_version > VB2_MAX_PREAMBLE_VERSION →
      (vb2_verify_kernel_vblock ctx sd kb).result ≠ none) ∧
    (get_boot_mode ctx ≠ Vb2BootMode.recovery →
      need_valid_keyblock ctx = true →
      kb.data_key_version > VB2_MAX_KEY_VERSION →
      (vb2_verify_kernel_vblock ctx sd kb).result ≠ none) :=
  ⟨fun hpv => vblock_pv_range ctx sd kb hpv,
   fun hmode hneed hkv => vblock_kv_range ctx sd kb hkv hmode hneed⟩

/-- C2 (counterexample to the claim as stated): in recovery mode a keyblock
with key_version 0x10000 is accepted - the vblock verification succeeds and
even records the kernel as signed, so key versions above 0xFFFF are not
rejected in every boot mode. -/
theorem version_range_recovery_cex :
    0xFFFF < exVbBigKey.data_key_version ∧
    (vb2_verify_kernel_vblock exCtxRec (exSd 10) exVbBigKey).result = none ∧
    (vb2_verify_kernel_vblock exCtxRec (exSd 10)
        exVbBigKey).sd.flag_kernel_signed = true := by
  decide

/-- C2 (witness): a preamble kernel_version of 0x10000 is rejected in
normal mode, instantiating the amended theorem. -/
theorem version_range_amended_case :
    (vb2_verify_kernel_vblock exCtxNormal (exSd 10)
        (exVb 5 0 0x10000)).result ≠ none :=
  (version_range_amended exCtxNormal (exSd 10) (exVb 5 0 0x10000)).1
    (by decide)

/-- C3 (amended): the boot-state digest function maps (recovery, developer)
to index 2*recovery + developer in the fixed table of four 20-byte digests;
rows 0, 1 and 3 match the table printed in the spec bit-exactly, but the
row for recovery=1, developer=0 is 62571891215b4efc1ceab744ce59dd0b66ea6f73
rather than the 41-hex-digit string the spec prints. -/
theorem boot_state_digest_amended (ctx : Ctx) :
    vb2_get_boot_state_digest ctx =
      kBootStateSHA1Digests.getD
        (2 * (if ctx.recovery_mode then 1 else 0) +
         (if ctx.developer_mode then 1 else 0)) [] ∧
    kBootStateSHA1Digests.getD 0 [] = specBootStateDigestTable.getD 0 [] ∧
    kBootStateSHA1Digests.getD 1 [] = specBootStateDigestTable.getD 1 [] ∧
    kBootStateSHA1Digests.getD 3 [] = specBootStateDigestTable.getD 3 [] ∧
    kBootStateSHA1Digests.getD 2 [] =
      [0x62, 0x57, 0x18, 0x91, 0x21, 0x5b, 0x4e, 0xfc, 0x1c, 0xea, 0xb7,
       0x44, 0xce, 0x59, 0xdd, 0x0b, 0x66, 0xea, 0x6f, 0x73] := by
  refine ⟨?_, by decide, by decide, by decide, by decide⟩
  cases hr : ctx.recovery_mode <;> cases hd : ctx.developer_mode <;>
    simp [vb2_get_boot_state_digest, hr, hd]

/-- C3 (counterexample to the claim as stated): for recovery=1, developer=0
the digest the code returns differs from the row printed in the table of
the spec (truncated to its first 20 bytes per the footnote of the spec). -/
theorem boot_state_digest_spec_cex :
    exCtxRec.recovery_mode = true ∧ exCtxRec.developer_mode = false ∧
    vb2_get_boot_state_digest exCtxRec ≠
      specBootStateDigestTable.getD 2 [] := by
  decide

/-- C4 (amended): the lowest-version tracker equals the minimum (as a fold
of min starting from the sentinel) over the composite versions of the
signed accepted candidates observed during the scan, and a counter target
is published exactly when a partition was chosen, the tracker moved off the
sentinel 0xFFFFFFFF, and it exceeds the secured counter; the published
value is the tracker. -/
theorem counter_update_decider_amended (ctx : Ctx) (sd : SharedData)
    (disk : Disk) (params : LoadKernelParams) :
    (LoadKernel ctx sd disk params).lowest_version =
      (((LoadKernel ctx sd disk params).accepted_obs.filter
          fun o => o.1).map fun o => o.2).foldl min LOWEST_TPM_VERSION ∧
    (LoadKernel ctx sd disk params).published =
      (if (LoadKernel ctx sd disk params).params.partition_number > 0 ∧
          (LoadKernel ctx sd disk params).lowest_version ≠
            LOWEST_TPM_VERSION ∧
          (LoadKernel ctx sd disk params).lowest_version >
            sd.kernel_version_secdata
       then some ((LoadKernel ctx sd disk params).lowest_version)
       else none) := by
  constructor
  · simp only [LoadKernel]
    rw [(finish_fields _).2.2.1, (finish_fields _).2.2.2.1]
    rw [← foldl_track_eq_min]
    split_ifs
    · rfl
    · rfl
    · exact scan_lowest ctx disk.entries 0 _ rfl
  · simp only [LoadKernel]
    apply finish_published_ext
    split_ifs
    · rfl
    · rfl
    · exact (scan_secdata ctx disk.entries 0 _).trans rfl

/-- C4 (counterexample to the claim as stated): a signed candidate with key
version 0xFFFF and kernel version 0xFFFF has composite 0xFFFFFFFF, equal to
the tracker sentinel.  The scan chooses it (success), a signed candidate
was observed, and the minimum signed composite 0xFFFFFFFF exceeds the
secured counter 3, yet no counter target is published, because the tracker
cannot distinguish this composite from its initial value. -/
theorem counter_sentinel_composite_cex :
    (LoadKernel exCtxNormal (exSd 3) (exDisk (exCand 5 0xFFFF 0xFFFF))
        exParams).rv = LkResult.success ∧
    (LoadKernel exCtxNormal (exSd 3) (exDisk (exCand 5 0xFFFF 0xFFFF))
        exParams).accepted_obs = [(true, 0xFFFFFFFF)] ∧
    (exSd 3).kernel_version_secdata < 0xFFFFFFFF ∧
    (LoadKernel exCtxNormal (exSd 3) (exDisk (exCand 5 0xFFFF 0xFFFF))
        exParams).published = none := by
  decide

/-- C5: for a candidate fully loaded and accepted (stream open succeeded,
no partition chosen yet, full vb2_load_partition success), the loop breaks
exactly when the mode is Recovery, or the keyblock is not signed, or the
composite version equals the secured counter; the accepted candidate sets
partition_number to idx+1 (so later candidates run vblock-only), and the
scan on a nonempty list is the one-candidate step followed, only when the
break flag is unset, by the scan of the rest. -/
theorem scan_stop_conditions (ctx : Ctx) (idx : Nat) (c : Candidate)
    (st : ScanState) (rest : List Candidate)
    (hpart : st.params.partition_number = 0)
    (hopen : c.stream_open_ok = true)
    (hacc : (vb2_load_partition ctx c false st.sd st.params).result = none) :
    ((process_candidate ctx idx c st).2 = true ↔
      (get_boot_mode ctx = Vb2BootMode.recovery ∨
       (vb2_load_partition ctx c false st.sd
         st.params).sd.flag_kernel_signed = false ∨
       (vb2_load_partition ctx c false st.sd st.params).sd.kernel_version =
         (vb2_load_partition ctx c false st.sd
           st.params).sd.kernel_version_secdata)) ∧
    (process_candidate ctx idx c st).1.params.partition_number = idx + 1 ∧
    scan_kernel_entries ctx idx (c :: rest) st =
      (if (process_candidate ctx idx c st).2 = true
       then (process_candidate ctx idx c st).1
       else scan_kernel_entries ctx (idx + 1) rest
         (process_candidate ctx idx c st).1) := by
  have hdec : decide (st.params.partition_number > 0) = false := by
    simp [hpart]
  refine ⟨?_, ?_, rfl⟩
  · simp only [process_candidate, hdec]
    split_ifs <;> (try simp_all) <;> (try tauto)
  · simp only [process_candidate, hdec]
    split_ifs <;> simp_all

/-- C5 (witness): a normal-mode candidate whose composite equals the
secured counter stops the scan. -/
theorem scan_stop_conditions_case :
    (process_candidate exCtxNormal 0 (exCand 5 0 5) exScanStart).2 = true :=
  ((scan_stop_conditions exCtxNormal 0 (exCand 5 0 5) exScanStart []
    (by decide) (by decide) (by decide)).1).mpr (by decide)

/-- C6: in recovery mode the vblock verification never returns the
key-version rollback error nor the composite-version rollback error, so
neither rollback comparison can cause a rejection. -/
theorem recovery_no_rollback_rejection (ctx : Ctx) (sd : SharedData)
    (kb : Vblock) (h : get_boot_mode ctx = Vb2BootMode.recovery) :
    (vb2_verify_kernel_vblock ctx sd kb).result ≠
        some Vb2Error.keyblockVersionRollback ∧
    (vb2_verify_kernel_vblock ctx sd kb).result ≠
        some Vb2Error.preambleVersionRollback := by
  simp only [vb2_verify_kernel_vblock]
  split_ifs <;> first
    | exact flags_stage_rec _ _ _ _ _ _ h
    | simp_all

/-- C6 (witness): a concrete recovery-mode verification returns neither
rollback error. -/
theorem recovery_no_rollback_rejection_case :
    (vb2_verify_kernel_vblock exCtxRec (exSd 10) (exVb 9 2 3)).result ≠
        some Vb2Error.keyblockVersionRollback ∧
    (vb2_verify_kernel_vblock exCtxRec (exSd 10) (exVb 9 2 3)).result ≠
        some Vb2Error.preambleVersionRollback :=
  recovery_no_rollback_rejection exCtxRec (exSd 10) (exVb 9 2 3) (by decide)

/-- C7: need_valid_keyblock returns true exactly when the mode is not
Developer, or the FWMP enable-official-only flag is set, or the
non-volatile dev-boot-signed-only flag is set; it returns false exactly
when the mode is Developer and both flags are clear. -/
theorem need_valid_keyblock_policy (ctx : Ctx) :
    (need_valid_keyblock ctx = true ↔
      (get_boot_mode ctx ≠ Vb2BootMode.developer ∨
       ctx.fwmp_dev_enable_official_only = true ∨
       ctx.nv_dev_boot_signed_only = true)) ∧
    (need_valid_keyblock ctx = false ↔
      (get_boot_mode ctx = Vb2BootMode.developer ∧
       ctx.fwmp_dev_enable_official_only = false ∧
       ctx.nv_dev_boot_signed_only = false)) := by
  unfold need_valid_keyblock
  repeat' split <;> simp_all

/-- C8: the keyblock signature attempt strictly precedes any hash attempt
(any trace containing the hash verification starts with signature then
hash); when the signature fails and the policy requires a signed kernel,
verification fails immediately with the keyblock-signature error and the
hash is never attempted; when the policy does not require a signed kernel,
the hash is then verified, and a hash failure is fatal. -/
theorem keyblock_sig_precedes_hash (ctx : Ctx) (sd : SharedData)
    (kb : Vblock) (hunpack : ctx.subkey_unpack_ok = true) :
    (CryptoOp.keyblockHashVerify ∈
        (vb2_verify_kernel_vblock ctx sd kb).trace →
      (vb2_verify_kernel_vblock ctx sd kb).trace.take 2 =
        [CryptoOp.keyblockSigVerify, CryptoOp.keyblockHashVerify]) ∧
    (kb.keyblock_sig_ok = false → need_valid_keyblock ctx = true →
      (vb2_verify_kernel_vblock ctx sd kb).result =
        some Vb2Error.keyblockSig ∧
      CryptoOp.keyblockHashVerify ∉
        (vb2_verify_kernel_vblock ctx sd kb).trace) ∧
    (kb.keyblock_sig_ok = false → need_valid_keyblock ctx = false →
      CryptoOp.keyblockHashVerify ∈
        (vb2_verify_kernel_vblock ctx sd kb).trace) ∧
    (kb.keyblock_sig_ok = false → need_valid_keyblock ctx = false →
      kb.keyblock_hash_ok = false →
      (vb2_verify_kernel_vblock ctx sd kb).result =
        some Vb2Error.keyblockHash) := by
  refine ⟨?_, ?_, ?_, ?_⟩
  · intro hmem
    rcases vblock_trace_shapes ctx sd kb with h | h | h | h | h <;>
      rw [h] at hmem ⊢ <;> simp_all
  · intro hsig hneed
    obtain ⟨h1, h2⟩ := vblock_sig_fail_need ctx sd kb hunpack hsig hneed
    rw [h1, h2]
    simp
  · exact fun hsig hneed =>
      vblock_sig_fail_noneed_hash_attempt ctx sd kb hunpack hsig hneed
  · exact fun hsig hneed hhash =>
      vblock_sig_hash_fail ctx sd kb hunpack hsig hneed hhash

/-- C8 (witness): a self-signed candidate in developer mode attempts the
keyblock hash. -/
theorem keyblock_sig_precedes_hash_case :
    CryptoOp.keyblockHashVerify ∈
      (vb2_verify_kernel_vblock exCtxDev (exSd 10) exVbSelfSigned).trace :=
  (keyblock_sig_precedes_hash exCtxDev (exSd 10) exVbSelfSigned
    (by decide)).2.2.1 (by decide) (by decide)

/-- C9: LoadKernel returns success exactly when a partition was chosen
(partition_number > 0), INVALID_KERNEL_FOUND exactly when none was chosen
but at least one candidate was enumerated, and NO_KERNEL_FOUND exactly when
no candidate was enumerated at all. -/
theorem load_kernel_return_trichotomy (ctx : Ctx) (sd : SharedData)
    (disk : Disk) (params : LoadKernelParams) :
    ((LoadKernel ctx sd disk params).rv = LkResult.success ↔
      (LoadKernel ctx sd disk params).params.partition_number > 0) ∧
    ((LoadKernel ctx sd disk params).rv = LkResult.invalidKernelFound ↔
      (LoadKernel ctx sd disk params).params.partition_number = 0 ∧
      (LoadKernel ctx sd disk params).found_partitions > 0) ∧
    ((LoadKernel ctx sd disk params).rv = LkResult.noKernelFound ↔
      (LoadKernel ctx sd disk params).params.partition_number = 0 ∧
      (LoadKernel ctx sd disk params).found_partitions = 0) := by
  simp only [LoadKernel]
  exact finish_trichotomy _

/-- C10: LoadKernel zeroes partition_number, bootloader_address,
bootloader_size and flags at entry, and the bootloader outputs are written
only on a fully verified candidate (which also sets partition_number), so
every call returning a non-success code leaves all four output parameters
zero. -/
theorem load_kernel_outputs_zero_on_failure (ctx : Ctx) (sd : SharedData)
    (disk : Disk) (params : LoadKernelParams)
    (h : (LoadKernel ctx sd disk params).rv ≠ LkResult.success) :
    (LoadKernel ctx sd disk params).params.partition_number = 0 ∧
    (LoadKernel ctx sd disk params).params.bootloader_address = 0 ∧
    (LoadKernel ctx sd disk params).params.bootloader_size = 0 ∧
    (LoadKernel ctx sd disk params).params.flags = 0 := by
  have hp : (LoadKernel ctx sd disk params).params.partition_number = 0 := by
    by_contra hne
    refine h ?_
    have htr : (LoadKernel ctx sd disk params).rv = LkResult.success ↔
        (LoadKernel ctx sd disk params).params.partition_number > 0 := by
      simp only [LoadKernel]
      exact (finish_trichotomy _).1
    exact htr.mpr (Nat.pos_of_ne_zero hne)
  have hst := lk_params_stable ctx sd disk params hp
  rw [hst]
  simp

/-- C10 (witness): on an empty disk LoadKernel fails with all four outputs
zero, even though the caller passed them in nonzero. -/
theorem load_kernel_outputs_zero_on_failure_case :
    (LoadKernel exCtxNormal (exSd 5) exDiskEmpty
        exParams).params.partition_number = 0 ∧
    (LoadKernel exCtxNormal (exSd 5) exDiskEmpty
        exParams).params.bootloader_address = 0 ∧
    (LoadKernel exCtxNormal (exSd 5) exDiskEmpty
        exParams).params.bootloader_size = 0 ∧
    (LoadKernel exCtxNormal (exSd 5) exDiskEmpty
        exParams).params.flags = 0 :=
  load_kernel_outputs_zero_on_failure exCtxNormal (exSd 5) exDiskEmpty
    exParams (by decide)

end Vboot
